import Mathlib

/-!
Verification of the TrackMate lost-and-found application (frontend under
`src/frontend` plus backend operations described by the specification).

The frontend is embedded shallowly: browser `localStorage` is an association
list of string keys to string values, each axios request site in the pages is a
constructor of `RequestSite`, and the header/error-handling logic of each site
is translated line by line from the JSX sources. Backend operations (item
listing, claim creation, statistics, login/authenticate) are not present in the
repository snapshot, so they are modelled from the specification where noted.
-/

namespace TrackMate

/-! ## Browser storage (`localStorage`) -/

/-- Browser `localStorage`: an association list from keys to values.
`localStorage.getItem` returns `null` (here `none`) for an absent key. -/
def Storage := List (String × String)

/-- `localStorage.getItem(k)`. -/
def getItem (st : Storage) (k : String) : Option String :=
  (List.find? (fun p => p.1 == k) st).map (fun p => p.2)

/-- `localStorage.setItem(k, v)`: replaces any previous binding of `k`. -/
def setItem (st : Storage) (k v : String) : Storage :=
  (k, v) :: List.filter (fun p => !(p.1 == k)) st

/-- `localStorage.removeItem(k)`. -/
def removeItem (st : Storage) (k : String) : Storage :=
  List.filter (fun p => !(p.1 == k)) st

theorem getItem_setItem_self (st : Storage) (k v : String) :
    getItem (setItem st k v) k = some v := by
  simp [getItem, setItem, List.find?]

theorem getItem_removeItem_self (st : Storage) (k : String) :
    getItem (removeItem st k) k = none := by
  have h : List.find? (fun p => p.1 == k) (removeItem st k) = none := by
    rw [List.find?_eq_none]
    intro x hx
    have hk := (List.mem_filter.mp hx).2
    simp at hk
    simp [hk]
  simp [getItem, h]

/-- JavaScript truthiness of a `string | null` value: `null` and the empty
string are falsy, every other string is truthy.  Used by the pages in
expressions such as `token ? {...} : undefined` and `if (!token)`. -/
def jsTruthy : Option String → Bool
  | none => false
  | some s => !(s == "")

/-! ## Request sites

Every HTTP request the client issues, one constructor per call site:
* `itemsFetch`, `itemsCreate`, `itemsClaim` — `ItemsPage` (`App.jsx`);
* `claimsFetch` — `ClaimsPage`;
* `adminItemStats`, `adminClaimStats` — `AdminPage`;
* `authLogin` — `LoginPage`; `authRegister` — `RegisterPage`.
-/

inductive RequestSite
  | itemsFetch
  | itemsCreate
  | itemsClaim
  | claimsFetch
  | adminItemStats
  | adminClaimStats
  | authLogin
  | authRegister
  deriving DecidableEq

/-- The HTTP client object a request site calls. `rawAxios` is the global
`axios` import; `apiInstance` is the `axios.create` instance exported by
`api.js` (the one carrying the request/response interceptors). -/
inductive HttpClient
  | rawAxios
  | apiInstance
  deriving DecidableEq

/-- Which client each site uses. Every page imports `axios` from `'axios'`
directly (`ItemsPage`/`ClaimsPage`/`AdminPage`/`LoginPage`/`RegisterPage` all
begin `import axios from 'axios'`); none imports the `api` instance, so every
request goes through the plain global axios. -/
def clientOf : RequestSite → HttpClient
  | .itemsFetch => .rawAxios
  | .itemsCreate => .rawAxios
  | .itemsClaim => .rawAxios
  | .claimsFetch => .rawAxios
  | .adminItemStats => .rawAxios
  | .adminClaimStats => .rawAxios
  | .authLogin => .rawAxios
  | .authRegister => .rawAxios

/-- The `Authorization` header a site attaches, as a function of the stored
token.  `ItemsPage`, `ClaimsPage` and `AdminPage` all compute
`const headers = token ? \x7b Authorization: `Bearer $\x7btoken\x7d` \x7d : undefined`;
`LoginPage` and `RegisterPage` pass no headers at all. -/
def authHeader (site : RequestSite) (tok : Option String) : Option String :=
  match site with
  | .authLogin => none
  | .authRegister => none
  | _ =>
      if jsTruthy tok then
        match tok with
        | some t => some ("Bearer " ++ t)
        | none => none
      else none

/-- The `Authorization` header that the request interceptor of the `api`
instance (`api.js` lines 7–14) would attach: it reads the stored token and,
when truthy, sets `Bearer <token>`, otherwise leaves headers untouched. -/
def apiRequestInterceptorAuth (tok : Option String) : Option String :=
  if jsTruthy tok then
    match tok with
    | some t => some ("Bearer " ++ t)
    | none => none
  else none

/-! ## 401 handling -/

/-- How an error surfaces to the user at a request site: as an inline alert
element (`setError`), or as a browser `alert()` dialog. -/
inductive ErrorSurface
  | inlineAlert
  | alertDialog
  deriving DecidableEq

/-- Which surface each site's `catch` handler uses. `ItemsPage.claimItem`
calls `alert(...)`; every other site calls `setError(...)`. -/
def errorSurfaceOf : RequestSite → ErrorSurface
  | .itemsClaim => .alertDialog
  | _ => .inlineAlert

/-- Effect of the `api` instance's response interceptor (`api.js` lines 16–27)
on a response with status 401: remove the stored token, and redirect to
`/login` unless the window is already there.  Returns the new storage and
whether a redirect to `/login` happens. -/
def apiInterceptorOn401 (st : Storage) (pathname : String) : Storage × Bool :=
  (removeItem st "token", !(pathname == "/login"))

/-- Effect, on storage and navigation, of a 401 response arriving at a request
site.  Each page's `catch` handler only records an error message
(`setError(e.response?.data?.detail || e.message)` or `alert(...)`): it never
touches `localStorage` and never redirects.  The `api` instance's interceptor
is not in the path of any of these sites (see `clientOf`). -/
def siteOn401 (_site : RequestSite) (st : Storage) (_pathname : String) :
    Storage × Bool :=
  (st, false)

/-! ## Route guarding (`App.jsx`) -/

/-- What the `RequireAuth` wrapper renders: either it calls
`window.location.replace('/login')` and returns `null` (no page content), or it
returns its `children` (the wrapped page). -/
inductive RenderResult
  | redirectLogin
  | renderChildren
  deriving DecidableEq

/-- `RequireAuth` (`App.jsx` lines 10–18): reads `localStorage.getItem('token')`
and redirects when the result is falsy (`null` or the empty string); otherwise
it renders the wrapped page. The token's value is never inspected further. -/
def requireAuth (stored : Option String) : RenderResult :=
  if jsTruthy stored then .renderChildren else .redirectLogin

/-- The route table of `App.jsx` (lines 64–71): each path together with whether
its element is wrapped in `RequireAuth`. -/
def routes : List (String × Bool) :=
  [("/", false), ("/items", true), ("/claims", true), ("/admin", true),
   ("/login", false), ("/register", false)]

/-! ## Session actions (`LoginPage.jsx`, `App.jsx`) -/

/-- Successful branch of `LoginPage.onSubmit`: stores the returned
`access_token` under the key `token` and navigates to `/items`. Returns the
new storage and the navigation target. -/
def loginOnSuccess (st : Storage) (accessToken : String) : Storage × String :=
  (setItem st "token" accessToken, "/items")

/-- `App.logout`: removes the stored token and navigates to `/login`. -/
def logoutAction (st : Storage) : Storage × String :=
  (removeItem st "token", "/login")

/-! ## Registration (`RegisterPage.jsx`) -/

/-- The JSON payload `RegisterPage.onSubmit` posts to `/auth/register`. -/
structure RegisterPayload where
  name : String
  email : String
  password : String
  deriving DecidableEq

/-- `RegisterPage.onSubmit` after the POST resolves: on success it navigates to
`/login`; on failure it records the error message. In neither case does it
touch `localStorage`. Returns (storage, navigation target, error message). -/
def registerOnSubmit (st : Storage) (resp : Except String Unit) :
    Storage × Option String × Option String :=
  match resp with
  | .ok _ => (st, some "/login", none)
  | .error msg => (st, none, some msg)

/-! ## Claim creation from the items page (`App.jsx`, `ItemsPage.claimItem`) -/

/-- The JSON body of a `POST /claims/` request. -/
structure ClaimBody where
  item_id : Nat
  message : String
  deriving DecidableEq

/-- `ItemsPage.claimItem(itemId)` posts this body: the clicked item's id and
the fixed message; the function has no other input. -/
def claimItemBody (itemId : Nat) : ClaimBody :=
  { item_id := itemId, message := "Interested in this item" }

/-! ## Item filters: client side (`ItemsPage.fetchItems`) -/

/-- The `filters` state of `ItemsPage`: three strings, all initially empty. -/
structure Filters where
  item_type : String
  location : String
  search : String
  deriving DecidableEq

/-- The query parameters `fetchItems` sends: each of the three keys is added
exactly when its filter value is truthy (a non-empty string). -/
def fetchItemsParams (f : Filters) : List (String × String) :=
  (if f.item_type == "" then [] else [("item_type", f.item_type)]) ++
  (if f.location == "" then [] else [("location", f.location)]) ++
  (if f.search == "" then [] else [("search", f.search)])

/-- The query parameters `ClaimsPage.fetchClaims` sends: `status_filter` is
added exactly when the status filter is a non-empty string. -/
def fetchClaimsParams (statusFilter : String) : List (String × String) :=
  if statusFilter == "" then [] else [("status_filter", statusFilter)]

/-! ## Backend data model

Modelled from the spec: the FastAPI backend (`app/`) is not part of the
repository snapshot; the entity fields and enumerations below follow §3 of
the specification. Dates and timestamps are modelled as natural numbers
counting days. -/

/-- Modelled from the spec: the `item_type` enumeration, `lost | found`. -/
inductive ItemType
  | lost
  | found
  deriving DecidableEq

/-- Modelled from the spec: the item `status` enumeration,
`active | claimed | returned`, default `active`. -/
inductive ItemStatus
  | active
  | claimed
  | returned
  deriving DecidableEq

/-- Modelled from the spec: an Item record (id, name, description, item_type,
location, date, optional image reference, status, creation day). -/
structure Item where
  id : Nat
  name : String
  description : String
  item_type : ItemType
  location : String
  date : Nat
  image_url : Option String
  status : ItemStatus
  created_at : Nat
  deriving DecidableEq

/-- Modelled from the spec: the claim `status` enumeration,
`pending | approved | rejected | completed`, default `pending`. -/
inductive ClaimStatus
  | pending
  | approved
  | rejected
  | completed
  deriving DecidableEq

/-- Modelled from the spec: a Claim record (id, referenced item, claimant,
message, status, creation day). -/
structure Claim where
  id : Nat
  item_id : Nat
  claimant : Nat
  message : String
  status : ClaimStatus
  created_at : Nat
  deriving DecidableEq

/-- Modelled from the spec: the persistent store visible to the item and claim
repositories. -/
structure DB where
  items : List Item
  claims : List Claim
  nextClaimId : Nat
  deriving DecidableEq

/-! ## Item listing (backend) -/

/-- Does the second character list occur at the start of the first? -/
def charsStartWith : List Char → List Char → Bool
  | _, [] => true
  | [], _ :: _ => false
  | a :: as, b :: bs => a == b && charsStartWith as bs

/-- Does `sub` occur contiguously anywhere inside the first list? -/
def charsContain (sub : List Char) : List Char → Bool
  | [] => charsStartWith [] sub
  | a :: as => charsStartWith (a :: as) sub || charsContain sub as

/-- Case-insensitive substring test: does `needle` occur inside `hay`? -/
def lowerContains (hay needle : String) : Bool :=
  charsContain needle.toLower.toList hay.toLower.toList

/-- Modelled from the spec: whether an item matches the provided filters.
`item_type` matches by equality, `location` by equality, and `search` matches
case-insensitively against name/description substrings; a filter that is not
provided (`none`) imposes no constraint. -/
def matchesFilters (fT : Option ItemType) (fL : Option String)
    (fS : Option String) (it : Item) : Bool :=
  (match fT with
   | none => true
   | some t => it.item_type == t) &&
  (match fL with
   | none => true
   | some l => it.location == l) &&
  (match fS with
   | none => true
   | some s => lowerContains it.name s || lowerContains it.description s)

/-- Modelled from the spec: the item List operation — the ordered sequence of
stored items matching all provided filters (logical AND). -/
def listItems (items : List Item) (fT : Option ItemType) (fL : Option String)
    (fS : Option String) : List Item :=
  List.filter (matchesFilters fT fL fS) items

/-! ## Item statistics (backend) -/

/-- Modelled from the spec: the counters of `GET /items/stats` that the admin
dashboard displays (total, by type, by status, created within the last 30
days). The top-locations ranking is omitted: no claim depends on it. -/
structure ItemStatsResult where
  total_items : Nat
  lost_items : Nat
  found_items : Nat
  active_items : Nat
  claimed_items : Nat
  returned_items : Nat
  recent_items_30_days : Nat
  deriving DecidableEq

/-- Modelled from the spec: the item Stats operation, counting over the item
store; `today` is the current day number. -/
def itemStats (items : List Item) (today : Nat) : ItemStatsResult where
  total_items := items.length
  lost_items := List.countP (fun it => it.item_type == .lost) items
  found_items := List.countP (fun it => it.item_type == .found) items
  active_items := List.countP (fun it => it.status == .active) items
  claimed_items := List.countP (fun it => it.status == .claimed) items
  returned_items := List.countP (fun it => it.status == .returned) items
  recent_items_30_days :=
    List.countP (fun it => today ≤ it.created_at + 30) items

/-! ## Claim creation (backend) -/

/-- The backend error taxonomy (spec §7). -/
inductive ApiError
  | validation
  | unauthorized
  | conflict
  | notFound
  deriving DecidableEq

/-- Does an item with the given id exist in the store? -/
def itemExists (db : DB) (itemId : Nat) : Bool :=
  List.any db.items (fun it => it.id == itemId)

/-- Modelled from the spec: the claim Create operation — fails with NotFound
when `item_id` references no existing item (leaving the store untouched);
otherwise persists a new Claim with status `pending`. -/
def createClaim (db : DB) (itemId : Nat) (msg : String) (claimant : Nat)
    (today : Nat) : Except ApiError (DB × Claim) :=
  if itemExists db itemId then
    let c : Claim :=
      { id := db.nextClaimId, item_id := itemId, claimant := claimant,
        message := msg, status := .pending, created_at := today }
    .ok ({ db with claims := db.claims ++ [c], nextClaimId := db.nextClaimId + 1 }, c)
  else
    .error .notFound

/-! ## Authentication (backend) -/

/-- Modelled from the spec: a User record (unique id, name, unique email,
salted password hash). -/
structure User where
  id : Nat
  name : String
  email : String
  passwordHash : String
  deriving DecidableEq

/-- Modelled from the spec: salted password hashing (bcrypt in the real
backend), abstracted as an injective tagged encoding; verification recomputes
the hash and compares. -/
def hashPassword (pw : String) : String :=
  "bcrypt$" ++ pw

/-- Password verification: the stored hash matches the hash of the offered
password. -/
def verifyPassword (pw storedHash : String) : Bool :=
  storedHash == hashPassword pw

/-- Modelled from the spec: a signed, time-bounded bearer token encoding the
user's identity (`sub`), an expiry instant, and a signature over both. -/
structure Token where
  sub : Nat
  exp : Nat
  sig : String
  deriving DecidableEq

/-- Modelled from the spec: the token signature (HMAC in the real backend),
abstracted as an encoding of the payload together with the server secret. -/
def signToken (secret : String) (sub exp : Nat) : String :=
  secret ++ "|" ++ toString sub ++ "|" ++ toString exp

/-- Token lifetime, in the same time unit as `now` (modelled constant). -/
def tokenLifetime : Nat := 30

/-- Issue a token for user `sub` at instant `now`. -/
def issueToken (secret : String) (sub now : Nat) : Token :=
  { sub := sub, exp := now + tokenLifetime,
    sig := signToken secret sub (now + tokenLifetime) }

/-- Look a user up by email (the login identifier). -/
def findByEmail (users : List User) (email : String) : Option User :=
  List.find? (fun u => u.email == email) users

/-- Look a user up by id (the token subject). -/
def findById (users : List User) (uid : Nat) : Option User :=
  List.find? (fun u => u.id == uid) users

/-- Modelled from the spec: Login — verifies the hash match for the user with
the given email; on success issues a signed, time-bounded token encoding the
user's identity; fails with Unauthorized on mismatch or unknown email. -/
def login (users : List User) (secret : String) (now : Nat)
    (email pw : String) : Except ApiError Token :=
  match findByEmail users email with
  | none => .error .unauthorized
  | some u =>
      if verifyPassword pw u.passwordHash then
        .ok (issueToken secret u.id now)
      else
        .error .unauthorized

/-- Modelled from the spec: Authenticate — verifies the token's signature and
expiry and resolves the subject to an existing user's identity; fails with
Unauthorized when the signature is wrong, the token is expired, or the subject
matches no user. -/
def authenticate (users : List User) (secret : String) (now : Nat)
    (tok : Token) : Except ApiError Nat :=
  if tok.sig == signToken secret tok.sub tok.exp && Nat.ble now tok.exp then
    match findById users tok.sub with
    | some u => .ok u.id
    | none => .error .unauthorized
  else
    .error .unauthorized

/-! ## Helper lemmas -/

theorem matchesFilters_eq_true_iff (fT : Option ItemType) (fL fS : Option String)
    (it : Item) :
    matchesFilters fT fL fS it = true ↔
      (∀ t, fT = some t → it.item_type = t) ∧
      (∀ l, fL = some l → it.location = l) ∧
      (∀ s, fS = some s →
        (lowerContains it.name s || lowerContains it.description s) = true) := by
  cases fT <;> cases fL <;> cases fS <;>
    simp [matchesFilters, and_assoc]

theorem mem_fetchItemsParams (f : Filters) (k v : String) :
    (k, v) ∈ fetchItemsParams f ↔
      (k = "item_type" ∧ v = f.item_type ∧ f.item_type ≠ "") ∨
      (k = "location" ∧ v = f.location ∧ f.location ≠ "") ∨
      (k = "search" ∧ v = f.search ∧ f.search ≠ "") := by
  by_cases h1 : f.item_type = "" <;> by_cases h2 : f.location = "" <;>
    by_cases h3 : f.search = "" <;>
      simp [fetchItemsParams, h1, h2, h3, Prod.ext_iff, and_comm]

theorem length_eq_sum_status_counts (l : List Item) :
    l.length = List.countP (fun it => it.status == ItemStatus.active) l +
      List.countP (fun it => it.status == ItemStatus.claimed) l +
      List.countP (fun it => it.status == ItemStatus.returned) l := by
  induction l with
  | nil => rfl
  | cons h t ih =>
      cases hs : h.status <;>
        simp [List.countP_cons, hs, List.length_cons, ih] <;> omega

/-! ## Claim theorems -/

/-- C4: the client keeps the bearer token in persistent browser storage —
after a successful login the returned `access_token` is stored under the key
`token` (and the page navigates to `/items`), and after logout no value
remains under `token` (and the page navigates to `/login`). -/
theorem C4_token_storage_lifecycle :
    ∀ (st : Storage) (tok : String),
      getItem (loginOnSuccess st tok).1 "token" = some tok ∧
      (loginOnSuccess st tok).2 = "/items" ∧
      getItem (logoutAction st).1 "token" = none ∧
      (logoutAction st).2 = "/login" := by
  intro st tok
  exact ⟨getItem_setItem_self st "token" tok, rfl,
    getItem_removeItem_self st "token", rfl⟩

/-- C8: each protected route (`/items`, `/claims`, `/admin`) is wrapped in
`RequireAuth`; the guard redirects to `/login` and renders nothing when no
token is stored, and renders the wrapped page for any stored non-empty token
without inspecting its value further. -/
theorem C8_requireAuth_guard :
    (∀ p, p ∈ ["/items", "/claims", "/admin"] → (p, true) ∈ routes) ∧
    requireAuth none = RenderResult.redirectLogin ∧
    (∀ t : String, t ≠ "" → requireAuth (some t) = RenderResult.renderChildren) := by
  refine ⟨?_, rfl, ?_⟩
  · intro p hp
    fin_cases hp <;> simp [routes]
  · intro t ht
    simp [requireAuth, jsTruthy, ht]

/-- Witness for C8 at a concrete token whose value is not a valid credential:
the guard still renders the page. -/
theorem C8_requireAuth_guard_witness :
    ("not-a-real-jwt" ≠ "") ∧
      requireAuth (some "not-a-real-jwt") = RenderResult.renderChildren :=
  ⟨by decide, C8_requireAuth_guard.2.2 "not-a-real-jwt" (by decide)⟩

/-- C9: registration does not authenticate — `RegisterPage.onSubmit` leaves
browser storage (in particular the `token` entry) unchanged whatever the
outcome, and on success navigates to `/login`. -/
theorem C9_register_no_authentication :
    ∀ (st : Storage) (resp : Except String Unit),
      (registerOnSubmit st resp).1 = st ∧
      getItem (registerOnSubmit st resp).1 "token" = getItem st "token" ∧
      (registerOnSubmit st (Except.ok ())).2.1 = some "/login" := by
  intro st resp
  cases resp <;> exact ⟨rfl, rfl, rfl⟩

/-- C10: every claim created from the items page carries the id of the clicked
item and the fixed message `Interested in this item`; the body's message is
the same whatever item is clicked, so no custom message can be supplied
through this interface. -/
theorem C10_claim_fixed_message :
    ∀ itemId : Nat,
      (claimItemBody itemId).item_id = itemId ∧
      (claimItemBody itemId).message = "Interested in this item" ∧
      (∀ itemId' : Nat,
        (claimItemBody itemId).message = (claimItemBody itemId').message) := by
  intro itemId
  exact ⟨rfl, rfl, fun _ => rfl⟩

/-- C1 counterexample: a 401 response to `ClaimsPage.fetchClaims` — an actual
request of the client — leaves the stored token in place and causes no
redirect, because that request goes through the plain global axios, not the
`api` instance carrying the response interceptor. -/
theorem C1_counterexample :
    getItem (siteOn401 RequestSite.claimsFetch [("token", "tok")] "/claims").1
        "token" = some "tok" ∧
    (siteOn401 RequestSite.claimsFetch [("token", "tok")] "/claims").2 = false ∧
    clientOf RequestSite.claimsFetch ≠ HttpClient.apiInstance := by
  exact ⟨by decide, rfl, by decide⟩

/-- C1 (amended): the response interceptor of the `api` axios instance does
clear the stored token on a 401 and redirects to `/login` unless the window is
already there; but every request site of the client uses the plain global
axios, so a 401 response to any request the client actually makes leaves
storage unchanged and causes no redirect. -/
theorem C1_401_handling :
    (∀ (st : Storage) (p : String),
        getItem (apiInterceptorOn401 st p).1 "token" = none ∧
        (apiInterceptorOn401 st p).2 = !(p == "/login")) ∧
    (∀ site : RequestSite, clientOf site = HttpClient.rawAxios) ∧
    (∀ (site : RequestSite) (st : Storage) (p : String),
        (siteOn401 site st p).1 = st ∧ (siteOn401 site st p).2 = false) := by
  refine ⟨?_, ?_, ?_⟩
  · intro st p
    exact ⟨getItem_removeItem_self st "token", rfl⟩
  · intro site
    cases site <;> rfl
  · intro site st p
    exact ⟨rfl, rfl⟩

/-- C2 counterexample: the registration request attaches no `Authorization`
header even when a (truthy) token is stored. -/
theorem C2_counterexample :
    jsTruthy (some "tok123") = true ∧
    authHeader RequestSite.authRegister (some "tok123") = none ∧
    authHeader RequestSite.authRegister (some "tok123") ≠
      some ("Bearer " ++ "tok123") := by
  exact ⟨rfl, rfl, by decide⟩

/-- C2 (amended): every request site other than login and registration
attaches `Authorization: Bearer <token>` exactly when a non-empty token is
stored (an empty stored string counts as absent, by JavaScript truthiness) and
no header when none is stored; the login and registration requests never
attach an `Authorization` header; the `api` instance's request interceptor
follows the same `Bearer` format. -/
theorem C2_bearer_header_format :
    (∀ site : RequestSite, site ≠ RequestSite.authLogin →
        site ≠ RequestSite.authRegister →
        (∀ t : String, t ≠ "" → authHeader site (some t) = some ("Bearer " ++ t)) ∧
        authHeader site none = none) ∧
    (∀ tok : Option String,
        authHeader RequestSite.authLogin tok = none ∧
        authHeader RequestSite.authRegister tok = none) ∧
    (∀ t : String, t ≠ "" →
        apiRequestInterceptorAuth (some t) = some ("Bearer " ++ t)) ∧
    apiRequestInterceptorAuth none = none := by
  refine ⟨?_, ?_, ?_, rfl⟩
  · intro site hl hr
    constructor
    · intro t ht
      cases site <;> simp_all [authHeader, jsTruthy]
    · cases site <;> simp_all [authHeader]
  · intro tok
    exact ⟨rfl, rfl⟩
  · intro t ht
    simp [apiRequestInterceptorAuth, jsTruthy, ht]

/-- Witness for C2 (amended): the items-listing request with a concrete stored
token carries exactly the `Bearer` header. -/
theorem C2_bearer_header_format_witness :
    (RequestSite.itemsFetch ≠ RequestSite.authLogin) ∧
    (RequestSite.itemsFetch ≠ RequestSite.authRegister) ∧
    ("tok123" ≠ "") ∧
    authHeader RequestSite.itemsFetch (some "tok123") =
      some ("Bearer " ++ "tok123") :=
  ⟨by decide, by decide, by decide,
    (C2_bearer_header_format.1 RequestSite.itemsFetch (by decide)
      (by decide)).1 "tok123" (by decide)⟩

/-- C3: backend listing returns exactly the stored items matching all provided
filters (equality on type and location, case-insensitive substring search on
name/description), an absent filter imposes no constraint, and no filters
returns every item; client side, `fetchItems` sends a query parameter for a
filter exactly when that filter's value is non-empty, with the filter's own
value. -/
theorem C3_item_listing_filters :
    (∀ (items : List Item) (fT : Option ItemType) (fL fS : Option String)
        (it : Item),
        it ∈ listItems items fT fL fS ↔
          it ∈ items ∧
          (∀ t, fT = some t → it.item_type = t) ∧
          (∀ l, fL = some l → it.location = l) ∧
          (∀ s, fS = some s →
            (lowerContains it.name s || lowerContains it.description s) = true)) ∧
    (∀ items : List Item, listItems items none none none = items) ∧
    (∀ (f : Filters) (k v : String),
        (k, v) ∈ fetchItemsParams f ↔
          (k = "item_type" ∧ v = f.item_type ∧ f.item_type ≠ "") ∨
          (k = "location" ∧ v = f.location ∧ f.location ≠ "") ∨
          (k = "search" ∧ v = f.search ∧ f.search ≠ "")) := by
  refine ⟨?_, ?_, mem_fetchItemsParams⟩
  · intro items fT fL fS it
    rw [listItems, List.mem_filter, matchesFilters_eq_true_iff]
  · intro items
    exact List.filter_eq_self.mpr (fun a _ => rfl)

/-- C5: creating a claim against a nonexistent item fails with NotFound and
persists nothing; against an existing item it appends exactly one new Claim
with status `pending`, leaving the item store unchanged. -/
theorem C5_create_claim (db : DB) (itemId claimant today : Nat) (msg : String) :
    (itemExists db itemId = false →
        createClaim db itemId msg claimant today = Except.error ApiError.notFound) ∧
    (itemExists db itemId = true →
        ∃ db' c, createClaim db itemId msg claimant today = Except.ok (db', c) ∧
          c.status = ClaimStatus.pending ∧ c.item_id = itemId ∧ c.message = msg ∧
          db'.items = db.items ∧ db'.claims = db.claims ++ [c]) := by
  constructor
  · intro h
    simp [createClaim, h]
  · intro h
    refine ⟨{ db with
        claims := db.claims ++
          [{ id := db.nextClaimId, item_id := itemId, claimant := claimant,
             message := msg, status := ClaimStatus.pending, created_at := today }],
        nextClaimId := db.nextClaimId + 1 },
      { id := db.nextClaimId, item_id := itemId, claimant := claimant,
        message := msg, status := ClaimStatus.pending, created_at := today },
      ?_, rfl, rfl, rfl, rfl, rfl⟩
    simp [createClaim, h]

/-- Witness database for C5: one active item with id 1. -/
def dbW : DB :=
  { items := [{ id := 1, name := "Wallet", description := "Black wallet",
                item_type := ItemType.lost, location := "Library", date := 10,
                image_url := none, status := ItemStatus.active, created_at := 10 }],
    claims := [], nextClaimId := 0 }

/-- Witness for C5 at a concrete store: item 1 exists and the created claim is
pending. -/
theorem C5_create_claim_witness :
    itemExists dbW 1 = true ∧
    ∃ db' c, createClaim dbW 1 "mine" 2 11 = Except.ok (db', c) ∧
      c.status = ClaimStatus.pending ∧ c.item_id = 1 ∧ c.message = "mine" ∧
      db'.items = dbW.items ∧ db'.claims = dbW.claims ++ [c] :=
  ⟨by decide, (C5_create_claim dbW 1 2 11 "mine").2 (by decide)⟩

/-- C6: the total item count reported by the item Stats operation equals the
sum of its per-status counts, for every state of the item store. -/
theorem C6_stats_total (items : List Item) (today : Nat) :
    (itemStats items today).total_items =
      (itemStats items today).active_items +
      (itemStats items today).claimed_items +
      (itemStats items today).returned_items := by
  simpa [itemStats] using length_eq_sum_status_counts items

/-- C7: for a registered user and the correct password, Login succeeds and the
issued token Authenticates (while unexpired) to the same user's identity. -/
theorem C7_login_authenticate_roundtrip (users : List User) (secret : String)
    (now : Nat) (email pw : String) (u : User)
    (h1 : findByEmail users email = some u)
    (h2 : u.passwordHash = hashPassword pw)
    (h3 : findById users u.id = some u) :
    ∃ t, login users secret now email pw = Except.ok t ∧
      authenticate users secret now t = Except.ok u.id := by
  refine ⟨issueToken secret u.id now, ?_, ?_⟩
  · simp [login, h1, verifyPassword, h2]
  · simp [authenticate, issueToken, h3, Nat.ble_eq]

/-- Witness user store for C7. -/
def usersW : List User :=
  [{ id := 1, name := "Alice", email := "alice@x.com",
     passwordHash := hashPassword "pw" }]

/-- The registered user of `usersW`. -/
def aliceW : User :=
  { id := 1, name := "Alice", email := "alice@x.com",
    passwordHash := hashPassword "pw" }

/-- Witness for C7 at a concrete user store, secret and instant. -/
theorem C7_login_authenticate_roundtrip_witness :
    findByEmail usersW "alice@x.com" = some aliceW ∧
    aliceW.passwordHash = hashPassword "pw" ∧
    findById usersW aliceW.id = some aliceW ∧
    ∃ t, login usersW "s3cret" 0 "alice@x.com" "pw" = Except.ok t ∧
      authenticate usersW "s3cret" 0 t = Except.ok aliceW.id :=
  ⟨by decide, by decide, by decide,
    C7_login_authenticate_roundtrip usersW "s3cret" 0 "alice@x.com" "pw" aliceW
      (by decide) (by decide) (by decide)⟩

end TrackMate
